import Mathlib

/-!
# Network scraper of the host-metrics receiver

A shallow embedding of `networkscraper/network_scraper.go` and of
`networkscraper/internal/metadata/generated_config.go`.

* Go values of type `uint64` are natural numbers, reduced modulo `2 ^ 64` where the
  source computes with them; `int64` values are integers.
* A Go `(value, error)` result is an `Except GoError value`; a Go `error` that may be
  `nil` is an `Option GoError`.
* Mutation through the pointer receiver `s *scraper` is explicit state passing.
* Go maps are association lists with unique keys.
-/

namespace NetworkScraper

/-! ## Errors -/

/-- Go `error` values: an error produced by a collaborator, `fmt.Errorf` without a
wrapping verb, and `fmt.Errorf` with `%w`, which keeps the wrapped cause. -/
inductive GoError where
  | external (msg : String)
  | errorf (msg : String)
  | wrapf (msg : String) (cause : GoError)
  deriving DecidableEq, Repr

/-- The result of `errors.Unwrap`. -/
def GoError.unwrap : GoError → Option GoError
  | .wrapf _ c => some c
  | _ => none

/-! ## Contexts -/

/-- The environment override map `common.EnvMap`. -/
abbrev EnvMap := List (String × String)

/-- Go `context.Context` values: `context.Background()`, a context made by a caller
(told apart by a number), and `context.WithValue(parent, common.EnvKey, env)`. -/
inductive Context where
  | background
  | root (id : Nat)
  | withEnv (parent : Context) (env : EnvMap)
  deriving DecidableEq, Repr

/-- Whether `c` is `d` or was derived from `d` by `context.WithValue`. -/
def Context.derivedFrom : Context → Context → Bool
  | .withEnv p e, d => (Context.withEnv p e == d) || p.derivedFrom d
  | c, d => c == d

/-! ## Metrics configuration (`generated_config.go`) -/

/-- The Go struct `MetricConfig`. -/
structure MetricConfig where
  Enabled : Bool
  deriving DecidableEq, Repr

/-- The Go struct `MetricsConfig`, one field per reportable metric. -/
structure MetricsConfig where
  SystemNetworkConnections : MetricConfig
  SystemNetworkConntrackCount : MetricConfig
  SystemNetworkConntrackMax : MetricConfig
  SystemNetworkDropped : MetricConfig
  SystemNetworkErrors : MetricConfig
  SystemNetworkIo : MetricConfig
  SystemNetworkPackets : MetricConfig
  SystemNetworkUDPBufErrors : MetricConfig
  SystemNetworkUDPDatagrams : MetricConfig
  SystemNetworkUDPErrors : MetricConfig
  SystemNetworkUDPNoPorts : MetricConfig
  deriving DecidableEq, Repr

/-- The Go function `DefaultMetricsConfig`. -/
def DefaultMetricsConfig : MetricsConfig :=
  { SystemNetworkConnections := { Enabled := true }
    SystemNetworkConntrackCount := { Enabled := false }
    SystemNetworkConntrackMax := { Enabled := false }
    SystemNetworkDropped := { Enabled := true }
    SystemNetworkErrors := { Enabled := true }
    SystemNetworkIo := { Enabled := true }
    SystemNetworkPackets := { Enabled := true }
    SystemNetworkUDPBufErrors := { Enabled := false }
    SystemNetworkUDPDatagrams := { Enabled := false }
    SystemNetworkUDPErrors := { Enabled := false }
    SystemNetworkUDPNoPorts := { Enabled := false } }

/-- The Go struct `MetricsBuilderConfig`. -/
structure MetricsBuilderConfig where
  Metrics : MetricsConfig
  deriving DecidableEq, Repr

/-- The Go function `DefaultMetricsBuilderConfig`. -/
def DefaultMetricsBuilderConfig : MetricsBuilderConfig :=
  { Metrics := DefaultMetricsConfig }

/-- The fields of `MetricsConfig` in declaration order, each under its `mapstructure`
key, with its enable flag. -/
def MetricsConfig.flags (c : MetricsConfig) : List (String × Bool) :=
  [ ("system.network.connections", c.SystemNetworkConnections.Enabled),
    ("system.network.conntrack.count", c.SystemNetworkConntrackCount.Enabled),
    ("system.network.conntrack.max", c.SystemNetworkConntrackMax.Enabled),
    ("system.network.dropped", c.SystemNetworkDropped.Enabled),
    ("system.network.errors", c.SystemNetworkErrors.Enabled),
    ("system.network.io", c.SystemNetworkIo.Enabled),
    ("system.network.packets", c.SystemNetworkPackets.Enabled),
    ("system.network.udp.buf_errors", c.SystemNetworkUDPBufErrors.Enabled),
    ("system.network.udp.datagrams", c.SystemNetworkUDPDatagrams.Enabled),
    ("system.network.udp.errors", c.SystemNetworkUDPErrors.Enabled),
    ("system.network.udp.no_ports", c.SystemNetworkUDPNoPorts.Enabled) ]

/-- The scraper's `Config`, as far as the scraper reads it: the embedded
`MetricsBuilderConfig` and the environment overrides `EnvMap`. -/
structure Config where
  MetricsBuilderConfig : MetricsBuilderConfig
  EnvMap : EnvMap
  deriving DecidableEq, Repr

/-- The promoted field `s.config.Metrics` of the embedded `MetricsBuilderConfig`. -/
def Config.Metrics (c : Config) : MetricsConfig :=
  c.MetricsBuilderConfig.Metrics

/-! ## Records returned by the statistics source -/

/-- The record `net.IOCountersStat`: one per network interface, counters are `uint64`. -/
structure IOCountersStat where
  Name : String
  BytesSent : Nat
  BytesRecv : Nat
  PacketsSent : Nat
  PacketsRecv : Nat
  Errin : Nat
  Errout : Nat
  Dropin : Nat
  Dropout : Nat
  Fifoin : Nat
  Fifoout : Nat
  deriving DecidableEq, Repr

/-- The record `net.ConnectionStat`, as far as the scraper reads it. -/
structure ConnectionStat where
  Status : String
  Pid : Int
  deriving DecidableEq, Repr

/-- A Go `map[string]int64`: an association list with unique keys. -/
abbrev GoMap := List (String × Int)

/-- Reading `m[k]`: the stored value, or the zero value when `k` is not a key. -/
def GoMap.get : GoMap → String → Int
  | [], _ => 0
  | (k', v') :: m, k => if k' = k then v' else GoMap.get m k

/-- Assigning `m[k] = v`: overwrites the entry of `k`, or adds one. -/
def GoMap.set : GoMap → String → Int → GoMap
  | [], k, v => [(k, v)]
  | (k', v') :: m, k, v => if k' = k then (k, v) :: m else (k', v') :: GoMap.set m k v

/-- The key list of a map. -/
def GoMap.keys (m : GoMap) : List String :=
  m.map Prod.fst

/-- The record `net.ProtoCountersStat`. -/
structure ProtoCountersStat where
  Protocol : String
  Stats : GoMap
  deriving DecidableEq, Repr

/-- The record `net.FilterStat` of the connection-tracking table. -/
structure FilterStat where
  ConnTrackCount : Int
  ConnTrackMax : Int
  deriving DecidableEq, Repr

/-! ## Machine integers -/

/-- The Go conversion `int64(x)` of a `uint64` value: the two's complement reading of
the low 64 bits. -/
def toInt64 (n : Nat) : Int :=
  if n % 2 ^ 64 < 2 ^ 63 then ((n % 2 ^ 64 : Nat) : Int)
  else ((n % 2 ^ 64 : Nat) : Int) - 2 ^ 64

/-- An `int64` result of integer arithmetic: reduced to the range `[-2^63, 2^63)`. -/
def wrapInt64 (i : Int) : Int :=
  (i + 2 ^ 63) % 2 ^ 64 - 2 ^ 63

/-! ## Data points and the metrics builder -/

/-- The metric series of the generated `metadata` package. -/
inductive Metric where
  | connections
  | conntrackCount
  | conntrackMax
  | dropped
  | errors
  | io
  | packets
  | udpBufErrors
  | udpDatagrams
  | udpErrors
  | udpNoPorts
  deriving DecidableEq, Repr

/-- The attribute values `metadata.AttributeDirectionTransmit` and
`metadata.AttributeDirectionReceive`. -/
inductive Direction where
  | transmit
  | receive
  deriving DecidableEq, Repr

/-- One call of a `Record...DataPoint` method: the series, the sample timestamp, the
value and the attribute values passed. -/
structure DataPoint where
  metric : Metric
  ts : Nat
  value : Int
  device : Option String
  direction : Option Direction
  protocol : Option String
  state : Option String
  deriving DecidableEq, Repr

/-- The settings `receiver.CreateSettings`, kept as an identifier. -/
abbrev CreateSettings := String

/-- Modelled from the spec: the generated `metadata.MetricsBuilder` lives in
`generated_metrics.go`, which is not among the translated sources. The builder accepts data points (timestamp, value, labels) through one
record call per metric family and yields the accumulated snapshot on demand. The model
keeps the builder's configuration, the series start time it was created with, and the
data points kept since the last snapshot, oldest first. Each of the four counter families
(packets, dropped, errors, io) is gated by its own enabled flag of that configuration. -/
structure MetricsBuilder where
  config : MetricsBuilderConfig
  settings : CreateSettings
  startTime : Nat
  recorded : List DataPoint
  deriving DecidableEq, Repr

/-- Modelled from the spec: `metadata.NewMetricsBuilder(cfg, settings,
metadata.WithStartTime(ts))`, a builder with no data point yet. -/
def NewMetricsBuilder (cfg : MetricsBuilderConfig) (settings : CreateSettings)
    (startTime : Nat) : MetricsBuilder :=
  { config := cfg, settings := settings, startTime := startTime, recorded := [] }

/-- Modelled from the spec: a record call hands one data point to the builder. -/
def MetricsBuilder.record (mb : MetricsBuilder) (p : DataPoint) : MetricsBuilder :=
  { mb with recorded := mb.recorded ++ [p] }

/-- Modelled from the spec: `RecordSystemNetworkPacketsDataPoint(ts, val, device, direction)`.
The packets family is gated by its own enabled flag: the point is kept only when
`system.network.packets` is enabled in the builder's configuration. -/
def MetricsBuilder.RecordSystemNetworkPacketsDataPoint (mb : MetricsBuilder) (ts : Nat)
    (val : Int) (device : String) (dir : Direction) : MetricsBuilder :=
  if mb.config.Metrics.SystemNetworkPackets.Enabled then
    mb.record ⟨.packets, ts, val, some device, some dir, none, none⟩
  else mb

/-- Modelled from the spec: `RecordSystemNetworkDroppedDataPoint(ts, val, device, direction)`.
The dropped family is gated by its own enabled flag: the point is kept only when
`system.network.dropped` is enabled in the builder's configuration. -/
def MetricsBuilder.RecordSystemNetworkDroppedDataPoint (mb : MetricsBuilder) (ts : Nat)
    (val : Int) (device : String) (dir : Direction) : MetricsBuilder :=
  if mb.config.Metrics.SystemNetworkDropped.Enabled then
    mb.record ⟨.dropped, ts, val, some device, some dir, none, none⟩
  else mb

/-- Modelled from the spec: `RecordSystemNetworkErrorsDataPoint(ts, val, device, direction)`.
The errors family is gated by its own enabled flag: the point is kept only when
`system.network.errors` is enabled in the builder's configuration. -/
def MetricsBuilder.RecordSystemNetworkErrorsDataPoint (mb : MetricsBuilder) (ts : Nat)
    (val : Int) (device : String) (dir : Direction) : MetricsBuilder :=
  if mb.config.Metrics.SystemNetworkErrors.Enabled then
    mb.record ⟨.errors, ts, val, some device, some dir, none, none⟩
  else mb

/-- Modelled from the spec: `RecordSystemNetworkIoDataPoint(ts, val, device, direction)`.
The io family is gated by its own enabled flag: the point is kept only when
`system.network.io` is enabled in the builder's configuration. -/
def MetricsBuilder.RecordSystemNetworkIoDataPoint (mb : MetricsBuilder) (ts : Nat)
    (val : Int) (device : String) (dir : Direction) : MetricsBuilder :=
  if mb.config.Metrics.SystemNetworkIo.Enabled then
    mb.record ⟨.io, ts, val, some device, some dir, none, none⟩
  else mb

/-- The attribute value `metadata.AttributeProtocolTcp`. -/
def AttributeProtocolTcp : String := "tcp"

/-- Modelled from the spec: `RecordSystemNetworkConnectionsDataPoint(ts, val, protocol, state)`. -/
def MetricsBuilder.RecordSystemNetworkConnectionsDataPoint (mb : MetricsBuilder) (ts : Nat)
    (val : Int) (protocol : String) (state : String) : MetricsBuilder :=
  mb.record ⟨.connections, ts, val, none, none, some protocol, some state⟩

/-- Modelled from the spec: `RecordSystemNetworkUDPDatagramsDataPoint(ts, val, direction)`. -/
def MetricsBuilder.RecordSystemNetworkUDPDatagramsDataPoint (mb : MetricsBuilder) (ts : Nat)
    (val : Int) (dir : Direction) : MetricsBuilder :=
  mb.record ⟨.udpDatagrams, ts, val, none, some dir, none, none⟩

/-- Modelled from the spec: `RecordSystemNetworkUDPBufErrorsDataPoint(ts, val, direction)`. -/
def MetricsBuilder.RecordSystemNetworkUDPBufErrorsDataPoint (mb : MetricsBuilder) (ts : Nat)
    (val : Int) (dir : Direction) : MetricsBuilder :=
  mb.record ⟨.udpBufErrors, ts, val, none, some dir, none, none⟩

/-- Modelled from the spec: `RecordSystemNetworkUDPErrorsDataPoint(ts, val)`. -/
def MetricsBuilder.RecordSystemNetworkUDPErrorsDataPoint (mb : MetricsBuilder) (ts : Nat)
    (val : Int) : MetricsBuilder :=
  mb.record ⟨.udpErrors, ts, val, none, none, none, none⟩

/-- Modelled from the spec: `Emit()` finalizes the snapshot: it returns the accumulated
data points and leaves the builder empty for the next cycle. -/
def MetricsBuilder.Emit (mb : MetricsBuilder) : MetricsBuilder × List DataPoint :=
  ({ mb with recorded := [] }, mb.recorded)

/-! ## The failure accumulator -/

/-- Modelled from the spec: the accumulator `scrapererror.ScrapeErrors` comes from the
collector library. `AddPartial` appends one failure record (count of affected metrics,
cause); `Combine` returns `nil` if no record was added, otherwise one aggregate error
that carries every cause and the number of metrics affected. -/
structure ScrapeErrors where
  records : List (Nat × GoError)
  deriving DecidableEq, Repr

/-- The aggregate error returned by `Combine`: the total of the affected counts and the
causes in the order they were added. -/
structure PartialScrapeError where
  Failed : Nat
  causes : List GoError
  deriving DecidableEq, Repr

/-- The zero value `var errors scrapererror.ScrapeErrors`. -/
def ScrapeErrors.empty : ScrapeErrors :=
  { records := [] }

/-- Modelled from the spec: `AddPartial(failed, err)` appends one failure record. -/
def ScrapeErrors.AddPartial (e : ScrapeErrors) (failed : Nat) (err : GoError) : ScrapeErrors :=
  { records := e.records ++ [(failed, err)] }

/-- Modelled from the spec: `Combine()` is `nil` exactly when no record was added. -/
def ScrapeErrors.Combine (e : ScrapeErrors) : Option PartialScrapeError :=
  match e.records with
  | [] => none
  | r :: rs => some { Failed := ((r :: rs).map Prod.fst).sum, causes := (r :: rs).map Prod.snd }

/-! ## The scraper -/

/-- The constant `networkMetricsLen`. -/
def networkMetricsLen : Nat := 4

/-- The constant `connectionsMetricsLen`. -/
def connectionsMetricsLen : Nat := 1

/-- The constant `protoMetricsLen`. -/
def protoMetricsLen : Nat := 4

/-- The interface `filterset.FilterSet`: a compiled name-matching predicate. -/
structure FilterSet where
  Matches : String → Bool

/-- The Go struct `scraper`. A `nil` builder or filter is `none`; the query functions are
the injection points the source keeps for mocking. -/
structure Scraper where
  settings : CreateSettings
  config : Config
  mb : Option MetricsBuilder
  startTime : Nat
  includeFS : Option FilterSet
  excludeFS : Option FilterSet
  bootTime : Context → Except GoError Nat
  ioCounters : Context → Bool → Except GoError (List IOCountersStat)
  connections : Context → String → Except GoError (List ConnectionStat)
  conntrack : Context → Except GoError (List FilterStat)
  protoCounters : Context → List String → Except GoError (List ProtoCountersStat)

/-- One query issued to the statistics source, with the context and arguments handed
to it. -/
inductive QueryCall where
  | bootTime (ctx : Context)
  | ioCounters (ctx : Context) (pernic : Bool)
  | connections (ctx : Context) (kind : String)
  | conntrack (ctx : Context)
  | protoCounters (ctx : Context) (protocols : List String)
  deriving DecidableEq, Repr

/-- The context handed to a query. -/
def QueryCall.ctx : QueryCall → Context
  | .bootTime c => c
  | .ioCounters c _ => c
  | .connections c _ => c
  | .conntrack c => c
  | .protoCounters c _ => c

/-- The state one scrape cycle works on: the builder behind `s.mb`, and the queries
issued so far, oldest first. -/
structure Run where
  mb : MetricsBuilder
  calls : List QueryCall
  deriving DecidableEq, Repr

/-- What a scrape cycle takes from outside the file `network_scraper.go`: the
package-level list `allTCPStates` and the method `recordNetworkConntrackMetrics`, both
defined per platform outside `network_scraper.go`; the library function
`net.ProtoCountersWithContext`, which the protocol group calls directly; and the
readings of `time.Now()` taken by the three groups of this file. -/
structure World where
  allTCPStates : List String
  recordNetworkConntrackMetrics : Scraper → Run → Run × Option GoError
  ProtoCountersWithContext : Context → List String → Except GoError (List ProtoCountersStat)
  nowCounters : Nat
  nowConnections : Nat
  nowProto : Nat

/-- The expression `context.WithValue(context.Background(), common.EnvKey, s.config.EnvMap)`. -/
def Scraper.backgroundCtx (s : Scraper) : Context :=
  .withEnv .background s.config.EnvMap

/-- The method `start`. The caller's context is extended with the environment map and
handed to the boot-time query; `bootTime * 1e9` is a `uint64` product. -/
def Scraper.start (s : Scraper) (ctx : Context) : Scraper × Option GoError :=
  let ctx := Context.withEnv ctx s.config.EnvMap
  match s.bootTime ctx with
  | .error err => (s, some err)
  | .ok bootTime =>
    let s := { s with startTime := (bootTime * 10 ^ 9) % 2 ^ 64 }
    let s := { s with mb := some (NewMetricsBuilder s.config.MetricsBuilderConfig s.settings
                                    ((bootTime * 10 ^ 9) % 2 ^ 64)) }
    (s, none)

/-- The method `includeInterface`. -/
def Scraper.includeInterface (s : Scraper) (interfaceName : String) : Bool :=
  (match s.includeFS with
   | none => true
   | some fs => fs.Matches interfaceName) &&
  (match s.excludeFS with
   | none => true
   | some fs => !fs.Matches interfaceName)

/-- The method `filterByInterface`: the fast path when both filters are `nil`, otherwise
a loop appending the kept records to an initially empty slice. -/
def Scraper.filterByInterface (s : Scraper) (ioCounters : List IOCountersStat) :
    List IOCountersStat :=
  if s.includeFS.isNone && s.excludeFS.isNone then ioCounters
  else
    ioCounters.foldl
      (fun filteredIOCounters io =>
        if s.includeInterface io.Name then filteredIOCounters ++ [io] else filteredIOCounters)
      []

/-- The method `recordNetworkPacketsMetric`. -/
def recordNetworkPacketsMetric (mb : MetricsBuilder) (now : Nat)
    (ioCountersSlice : List IOCountersStat) : MetricsBuilder :=
  ioCountersSlice.foldl
    (fun mb ioCounters =>
      let mb := mb.RecordSystemNetworkPacketsDataPoint now (toInt64 ioCounters.PacketsSent)
        ioCounters.Name .transmit
      mb.RecordSystemNetworkPacketsDataPoint now (toInt64 ioCounters.PacketsRecv)
        ioCounters.Name .receive)
    mb

/-- The method `recordNetworkDroppedPacketsMetric`. -/
def recordNetworkDroppedPacketsMetric (mb : MetricsBuilder) (now : Nat)
    (ioCountersSlice : List IOCountersStat) : MetricsBuilder :=
  ioCountersSlice.foldl
    (fun mb ioCounters =>
      let mb := mb.RecordSystemNetworkDroppedDataPoint now (toInt64 ioCounters.Dropout)
        ioCounters.Name .transmit
      mb.RecordSystemNetworkDroppedDataPoint now (toInt64 ioCounters.Dropin)
        ioCounters.Name .receive)
    mb

/-- The method `recordNetworkErrorPacketsMetric`. -/
def recordNetworkErrorPacketsMetric (mb : MetricsBuilder) (now : Nat)
    (ioCountersSlice : List IOCountersStat) : MetricsBuilder :=
  ioCountersSlice.foldl
    (fun mb ioCounters =>
      let mb := mb.RecordSystemNetworkErrorsDataPoint now (toInt64 ioCounters.Errout)
        ioCounters.Name .transmit
      mb.RecordSystemNetworkErrorsDataPoint now (toInt64 ioCounters.Errin)
        ioCounters.Name .receive)
    mb

/-- The method `recordNetworkIOMetric`. -/
def recordNetworkIOMetric (mb : MetricsBuilder) (now : Nat)
    (ioCountersSlice : List IOCountersStat) : MetricsBuilder :=
  ioCountersSlice.foldl
    (fun mb ioCounters =>
      let mb := mb.RecordSystemNetworkIoDataPoint now (toInt64 ioCounters.BytesSent)
        ioCounters.Name .transmit
      mb.RecordSystemNetworkIoDataPoint now (toInt64 ioCounters.BytesRecv)
        ioCounters.Name .receive)
    mb

/-- The method `recordNetworkCounterMetrics`. -/
def Scraper.recordNetworkCounterMetrics (s : Scraper) (w : World) (st : Run) :
    Run × Option GoError :=
  let ctx := s.backgroundCtx
  let now := w.nowCounters
  let st := { st with calls := st.calls ++ [QueryCall.ioCounters ctx true] }
  match s.ioCounters ctx true with
  | .error err => (st, some (.wrapf "failed to read network IO stats" err))
  | .ok ioCounters =>
    let ioCounters := s.filterByInterface ioCounters
    if ioCounters.length > 0 then
      let mb := recordNetworkPacketsMetric st.mb now ioCounters
      let mb := recordNetworkDroppedPacketsMetric mb now ioCounters
      let mb := recordNetworkErrorPacketsMetric mb now ioCounters
      let mb := recordNetworkIOMetric mb now ioCounters
      ({ st with mb := mb }, none)
    else (st, none)

/-- The function `getTCPConnectionStatusCounts`, over the list `allTCPStates`. The
increment `tcpStatuses[connection.Status]++` is an `int64` addition. -/
def getTCPConnectionStatusCounts (allTCPStates : List String)
    (connections : List ConnectionStat) : GoMap :=
  let tcpStatuses : GoMap := allTCPStates.foldl (fun m state => m.set state 0) []
  connections.foldl
    (fun m connection => m.set connection.Status (wrapInt64 (m.get connection.Status + 1)))
    tcpStatuses

/-- The method `recordNetworkConnectionsMetric`. Go leaves the iteration order of a map
unspecified; the model walks the entries in the order they were inserted. -/
def recordNetworkConnectionsMetric (mb : MetricsBuilder) (now : Nat)
    (connectionStateCounts : GoMap) : MetricsBuilder :=
  connectionStateCounts.foldl
    (fun mb entry =>
      mb.RecordSystemNetworkConnectionsDataPoint now entry.2 AttributeProtocolTcp entry.1)
    mb

/-- The method `recordNetworkConnectionsMetrics`. -/
def Scraper.recordNetworkConnectionsMetrics (s : Scraper) (w : World) (st : Run) :
    Run × Option GoError :=
  if !s.config.Metrics.SystemNetworkConnections.Enabled then (st, none)
  else
    let ctx := s.backgroundCtx
    let now := w.nowConnections
    let st := { st with calls := st.calls ++ [QueryCall.connections ctx "tcp"] }
    match s.connections ctx "tcp" with
    | .error err => (st, some (.wrapf "failed to read TCP connections" err))
    | .ok connections =>
      let tcpConnectionStatusCounts := getTCPConnectionStatusCounts w.allTCPStates connections
      ({ st with mb := recordNetworkConnectionsMetric st.mb now tcpConnectionStatusCounts }, none)

/-- The loop body of `recordNetworkProtoCounterMetrics` for one protocol record. -/
def recordProtoCounter (cfg : MetricsConfig) (now : Nat) (mb : MetricsBuilder)
    (counter : ProtoCountersStat) : MetricsBuilder :=
  let mb :=
    if cfg.SystemNetworkUDPDatagrams.Enabled then
      let mb := mb.RecordSystemNetworkUDPDatagramsDataPoint now
        (counter.Stats.get "OutDatagrams") .transmit
      mb.RecordSystemNetworkUDPDatagramsDataPoint now (counter.Stats.get "InDatagrams") .receive
    else mb
  let mb :=
    if cfg.SystemNetworkUDPBufErrors.Enabled then
      let mb := mb.RecordSystemNetworkUDPBufErrorsDataPoint now
        (counter.Stats.get "SndbufErrors") .transmit
      mb.RecordSystemNetworkUDPBufErrorsDataPoint now (counter.Stats.get "RcvbufErrors") .receive
    else mb
  let mb :=
    if cfg.SystemNetworkUDPErrors.Enabled then
      mb.RecordSystemNetworkUDPErrorsDataPoint now (counter.Stats.get "InErrors")
    else mb
  if cfg.SystemNetworkUDPNoPorts.Enabled then
    mb.RecordSystemNetworkUDPErrorsDataPoint now (counter.Stats.get "NoPorts")
  else mb

/-- The method `recordNetworkProtoCounterMetrics`. The query goes to the library
function `net.ProtoCountersWithContext`, not to the field `s.protoCounters`. -/
def Scraper.recordNetworkProtoCounterMetrics (s : Scraper) (w : World) (st : Run) :
    Run × Option GoError :=
  let enabled := s.config.Metrics.SystemNetworkUDPDatagrams.Enabled ||
    s.config.Metrics.SystemNetworkUDPBufErrors.Enabled ||
    s.config.Metrics.SystemNetworkUDPErrors.Enabled ||
    s.config.Metrics.SystemNetworkUDPNoPorts.Enabled
  if !enabled then (st, none)
  else
    let ctx := s.backgroundCtx
    let now := w.nowProto
    let st := { st with calls := st.calls ++ [QueryCall.protoCounters ctx ["udp"]] }
    match w.ProtoCountersWithContext ctx ["udp"] with
    | .error err => (st, some (.wrapf "failed to read network proto counters" err))
    | .ok protoCounters =>
      if protoCounters.length = 0 then
        (st, some (.errorf "no network proto counters available"))
      else
        ({ st with mb := protoCounters.foldl (recordProtoCounter s.config.Metrics now) st.mb },
          none)

/-- The body of `scrape` up to its return statement: the four groups in order, each
failure added to the local accumulator `errors`. -/
def Scraper.scrapeGroups (s : Scraper) (w : World) (st : Run) : Run × ScrapeErrors :=
  let errors := ScrapeErrors.empty
  let (st, err) := s.recordNetworkCounterMetrics w st
  let errors :=
    match err with
    | some err => errors.AddPartial networkMetricsLen err
    | none => errors
  let (st, err) := s.recordNetworkConnectionsMetrics w st
  let errors :=
    match err with
    | some err => errors.AddPartial connectionsMetricsLen err
    | none => errors
  let (st, err) := w.recordNetworkConntrackMetrics s st
  let errors :=
    match err with
    | some err => errors.AddPartial connectionsMetricsLen err
    | none => errors
  let (st, err) := s.recordNetworkProtoCounterMetrics w st
  let errors :=
    match err with
    | some err => errors.AddPartial protoMetricsLen err
    | none => errors
  (st, errors)

/-- What one call of `scrape` yields: the scraper after the call, the queries it issued,
the snapshot `s.mb.Emit()` and the combined error `errors.Combine()`. -/
structure ScrapeResult where
  scraper : Scraper
  calls : List QueryCall
  metrics : List DataPoint
  err : Option PartialScrapeError

/-- The method `scrape`. Its context parameter is the blank identifier. A scraper whose
builder is still `nil` (not started) fails with a nil dereference, which is `none`. -/
def Scraper.scrape (s : Scraper) (w : World) (_ : Context) : Option ScrapeResult :=
  match s.mb with
  | none => none
  | some mb =>
    let (st, errors) := s.scrapeGroups w { mb := mb, calls := [] }
    let (mb, metrics) := st.mb.Emit
    some { scraper := { s with mb := some mb }, calls := st.calls, metrics := metrics,
           err := errors.Combine }

/-! ## Default configuration -/

/-- Claim C9: `DefaultMetricsConfig()` enables exactly the five metrics connections,
dropped, errors, io and packets and disables the six metrics conntrack-count,
conntrack-max, udp-datagrams, udp-buf-errors, udp-errors and udp-no-ports, eleven flags
in total, and `DefaultMetricsBuilderConfig()` carries that same metrics configuration. -/
theorem DefaultMetricsConfig_enabled_exactly :
    DefaultMetricsConfig.SystemNetworkConnections.Enabled = true ∧
    DefaultMetricsConfig.SystemNetworkDropped.Enabled = true ∧
    DefaultMetricsConfig.SystemNetworkErrors.Enabled = true ∧
    DefaultMetricsConfig.SystemNetworkIo.Enabled = true ∧
    DefaultMetricsConfig.SystemNetworkPackets.Enabled = true ∧
    DefaultMetricsConfig.SystemNetworkConntrackCount.Enabled = false ∧
    DefaultMetricsConfig.SystemNetworkConntrackMax.Enabled = false ∧
    DefaultMetricsConfig.SystemNetworkUDPDatagrams.Enabled = false ∧
    DefaultMetricsConfig.SystemNetworkUDPBufErrors.Enabled = false ∧
    DefaultMetricsConfig.SystemNetworkUDPErrors.Enabled = false ∧
    DefaultMetricsConfig.SystemNetworkUDPNoPorts.Enabled = false ∧
    DefaultMetricsConfig.flags.length = 11 ∧
    (DefaultMetricsConfig.flags.filter (fun f => f.2)).map Prod.fst =
      ["system.network.connections", "system.network.dropped", "system.network.errors",
       "system.network.io", "system.network.packets"] ∧
    (DefaultMetricsConfig.flags.filter (fun f => !f.2)).map Prod.fst =
      ["system.network.conntrack.count", "system.network.conntrack.max",
       "system.network.udp.buf_errors", "system.network.udp.datagrams",
       "system.network.udp.errors", "system.network.udp.no_ports"] ∧
    DefaultMetricsBuilderConfig.Metrics = DefaultMetricsConfig := by
  refine ⟨rfl, rfl, rfl, rfl, rfl, rfl, rfl, rfl, rfl, rfl, rfl, rfl, rfl, rfl, rfl⟩

/-! ## Interface filtering -/

/-- The filtering loop, started from any accumulated slice, appends the kept records. -/
theorem filterLoop_eq (keep : IOCountersStat → Bool) (xs acc : List IOCountersStat) :
    xs.foldl (fun filtered io => if keep io then filtered ++ [io] else filtered) acc =
      acc ++ xs.filter keep := by
  induction xs generalizing acc with
  | nil => simp
  | cons x xs ih =>
    rw [List.foldl_cons, ih]
    by_cases hk : keep x = true <;> simp [List.filter_cons, hk]

/-- Claim C2: for every include filter and exclude filter (each possibly absent) and
every list of interface records, `filterByInterface` returns exactly the records, in
input order, whose name satisfies (include is absent or matches the name) and (exclude
is absent or does not match the name); with both filters absent the result is the input
list. -/
theorem filterByInterface_eq_filter (s : Scraper) (ioCounters : List IOCountersStat) :
    s.filterByInterface ioCounters =
      ioCounters.filter (fun io =>
        s.includeFS.all (fun fs => fs.Matches io.Name) &&
        s.excludeFS.all (fun fs => !fs.Matches io.Name)) ∧
    ({ s with includeFS := none, excludeFS := none } : Scraper).filterByInterface ioCounters =
      ioCounters := by
  constructor
  · have hkeep : ∀ name, s.includeInterface name =
        (s.includeFS.all (fun fs => fs.Matches name) &&
         s.excludeFS.all (fun fs => !fs.Matches name)) := by
      intro name
      unfold Scraper.includeInterface
      cases s.includeFS <;> cases s.excludeFS <;> simp [Option.all]
    unfold Scraper.filterByInterface
    split
    · next h =>
      simp only [Bool.and_eq_true, Option.isNone_iff_eq_none] at h
      simp [h.1, h.2, Option.all]
    · rw [filterLoop_eq (fun io => s.includeInterface io.Name)]
      simp [hkeep]
  · simp [Scraper.filterByInterface]

/-! ## Start -/

/-- Claim C8: `start` returns an error if and only if the boot-time query fails; it then
returns that query's error and leaves the scraper, with its start time and metrics
builder, unchanged; when the query succeeds with boot time `b` seconds the stored start
time is `b * 10^9` in unsigned 64-bit arithmetic, and the builder is created with it. -/
theorem start_error_iff_bootTime_fails (s : Scraper) (ctx : Context) :
    ((s.start ctx).2.isSome = (s.bootTime (.withEnv ctx s.config.EnvMap)).toBool.not) ∧
    (match s.bootTime (.withEnv ctx s.config.EnvMap) with
     | .error err =>
        (s.start ctx).2 = some err ∧ (s.start ctx).1.startTime = s.startTime ∧
        (s.start ctx).1.mb = s.mb ∧ (s.start ctx).1 = s
     | .ok b =>
        (s.start ctx).2 = none ∧
        (s.start ctx).1.startTime = (b * 10 ^ 9) % 2 ^ 64 ∧
        (s.start ctx).1.mb =
          some (NewMetricsBuilder s.config.MetricsBuilderConfig s.settings
            ((b * 10 ^ 9) % 2 ^ 64))) := by
  simp only [Scraper.start]
  cases h : s.bootTime (.withEnv ctx s.config.EnvMap) <;> simp [Except.toBool]

/-! ## The scrape cycle -/

/-- The failure records of a cycle: of the four outcomes, paired with the static counts
of their groups, the ones that are errors, in group order. -/
def failureRecords (e1 e2 e3 e4 : Option GoError) : List (Nat × GoError) :=
  [(4, e1), (1, e2), (1, e3), (4, e4)].filterMap (fun r => r.2.map (fun err => (r.1, err)))

/-- Claim C1: whatever the outcomes of the four groups (IO counters, connections,
conntrack, UDP protocol counters), `scrape` runs all four in that order, each on the
state the previous one left, failed or not; the failure records are exactly the failing
groups in that order with the counts 4, 1, 1, 4; the combined error is nil if and only if
no group failed; and the snapshot is returned in every case. -/
theorem scrape_runs_all_groups (s : Scraper) (w : World) (ctx : Context) (mb : MetricsBuilder) :
    let s1 : Scraper := { s with mb := some mb }
    let r1 := s1.recordNetworkCounterMetrics w { mb := mb, calls := [] }
    let r2 := s1.recordNetworkConnectionsMetrics w r1.1
    let r3 := w.recordNetworkConntrackMetrics s1 r2.1
    let r4 := s1.recordNetworkProtoCounterMetrics w r3.1
    s1.scrapeGroups w { mb := mb, calls := [] } =
      (r4.1, { records := failureRecords r1.2 r2.2 r3.2 r4.2 }) ∧
    (∃ res, s1.scrape w ctx = some res ∧
      res.metrics = r4.1.mb.recorded ∧
      res.calls = r4.1.calls ∧
      res.err = ScrapeErrors.Combine { records := failureRecords r1.2 r2.2 r3.2 r4.2 } ∧
      (res.err = none ↔ r1.2 = none ∧ r2.2 = none ∧ r3.2 = none ∧ r4.2 = none)) := by
  intro s1 r1 r2 r3 r4
  have hg : s1.scrapeGroups w { mb := mb, calls := [] } =
      (r4.1, { records := failureRecords r1.2 r2.2 r3.2 r4.2 }) := by
    simp only [Scraper.scrapeGroups]
    show (r4.1, _) = _
    congr 1
    cases r1.2 <;> cases r2.2 <;> cases r3.2 <;> cases r4.2 <;>
      simp [failureRecords, ScrapeErrors.AddPartial, ScrapeErrors.empty, networkMetricsLen,
        connectionsMetricsLen, protoMetricsLen]
  refine ⟨hg, ?_⟩
  refine ⟨{ scraper := { s1 with mb := some (r4.1.mb.Emit).1 }, calls := r4.1.calls,
            metrics := r4.1.mb.recorded,
            err := ScrapeErrors.Combine { records := failureRecords r1.2 r2.2 r3.2 r4.2 } },
          ?_, rfl, rfl, rfl, ?_⟩
  · show Scraper.scrape s1 w ctx = _
    simp only [Scraper.scrape]
    rw [hg]
    rfl
  · show ScrapeErrors.Combine _ = none ↔ _
    cases r1.2 <;> cases r2.2 <;> cases r3.2 <;> cases r4.2 <;>
      simp [failureRecords, ScrapeErrors.Combine]

/-! ## The protocol counters group -/

/-- Whether at least one of the four UDP metrics is enabled. -/
def anyUDPEnabled (cfg : MetricsConfig) : Bool :=
  cfg.SystemNetworkUDPDatagrams.Enabled || cfg.SystemNetworkUDPBufErrors.Enabled ||
    cfg.SystemNetworkUDPErrors.Enabled || cfg.SystemNetworkUDPNoPorts.Enabled

/-- The data points expected of the UDP group for one protocol record: two datagram
points, two buffer-error points, one errors point for `InErrors` and one point in the
same errors series for `NoPorts`, each kind only if its flag is set. -/
def expectedUDPPoints (cfg : MetricsConfig) (now : Nat) (c : ProtoCountersStat) :
    List DataPoint :=
  (if cfg.SystemNetworkUDPDatagrams.Enabled then
    [⟨.udpDatagrams, now, c.Stats.get "OutDatagrams", none, some .transmit, none, none⟩,
     ⟨.udpDatagrams, now, c.Stats.get "InDatagrams", none, some .receive, none, none⟩]
   else []) ++
  (if cfg.SystemNetworkUDPBufErrors.Enabled then
    [⟨.udpBufErrors, now, c.Stats.get "SndbufErrors", none, some .transmit, none, none⟩,
     ⟨.udpBufErrors, now, c.Stats.get "RcvbufErrors", none, some .receive, none, none⟩]
   else []) ++
  (if cfg.SystemNetworkUDPErrors.Enabled then
    [⟨.udpErrors, now, c.Stats.get "InErrors", none, none, none, none⟩]
   else []) ++
  (if cfg.SystemNetworkUDPNoPorts.Enabled then
    [⟨.udpErrors, now, c.Stats.get "NoPorts", none, none, none, none⟩]
   else [])

/-- One pass of the loop body appends the expected points of that record and touches
nothing else of the builder. -/
theorem recordProtoCounter_eq (cfg : MetricsConfig) (now : Nat) (mb : MetricsBuilder)
    (c : ProtoCountersStat) :
    recordProtoCounter cfg now mb c =
      { mb with recorded := mb.recorded ++ expectedUDPPoints cfg now c } := by
  cases mb with
  | mk config settings startTime recorded =>
    simp only [recordProtoCounter, expectedUDPPoints,
      MetricsBuilder.RecordSystemNetworkUDPDatagramsDataPoint,
      MetricsBuilder.RecordSystemNetworkUDPBufErrorsDataPoint,
      MetricsBuilder.RecordSystemNetworkUDPErrorsDataPoint, MetricsBuilder.record]
    cases cfg.SystemNetworkUDPDatagrams.Enabled <;> cases cfg.SystemNetworkUDPBufErrors.Enabled <;>
      cases cfg.SystemNetworkUDPErrors.Enabled <;> cases cfg.SystemNetworkUDPNoPorts.Enabled <;>
      simp

/-- The loop over the protocol records appends the expected points record by record. -/
theorem protoLoop_eq (cfg : MetricsConfig) (now : Nat) (cs : List ProtoCountersStat)
    (mb : MetricsBuilder) :
    cs.foldl (recordProtoCounter cfg now) mb =
      { mb with recorded := mb.recorded ++ cs.flatMap (expectedUDPPoints cfg now) } := by
  induction cs generalizing mb with
  | nil => simp
  | cons c cs ih =>
    rw [List.foldl_cons, ih, recordProtoCounter_eq]
    simp [List.flatMap_cons, List.append_assoc]

/-- Claim C6: `recordNetworkProtoCounterMetrics` returns an error if and only if at least
one of the four UDP flags is set and the query fails or returns an empty list; the error
for the empty list is the cause "no network proto counters available", which wraps
nothing, while a query failure is wrapped; and when no flag is set no query is issued, no
point is recorded and no error is returned. -/
theorem recordNetworkProtoCounterMetrics_error_iff (s : Scraper) (w : World) (st : Run) :
    ((s.recordNetworkProtoCounterMetrics w st).2 ≠ none ↔
      (anyUDPEnabled s.config.Metrics = true ∧
        ((∃ err, w.ProtoCountersWithContext s.backgroundCtx ["udp"] = .error err) ∨
          w.ProtoCountersWithContext s.backgroundCtx ["udp"] = .ok []))) ∧
    (s.recordNetworkProtoCounterMetrics w st).2 =
      (if anyUDPEnabled s.config.Metrics then
        match w.ProtoCountersWithContext s.backgroundCtx ["udp"] with
        | .error err => some (.wrapf "failed to read network proto counters" err)
        | .ok [] => some (.errorf "no network proto counters available")
        | .ok (_ :: _) => none
       else none) ∧
    (GoError.errorf "no network proto counters available").unwrap = none ∧
    (∀ err, GoError.errorf "no network proto counters available" ≠
      .wrapf "failed to read network proto counters" err) ∧
    (if anyUDPEnabled s.config.Metrics then
      (s.recordNetworkProtoCounterMetrics w st).1.calls =
        st.calls ++ [QueryCall.protoCounters s.backgroundCtx ["udp"]]
     else s.recordNetworkProtoCounterMetrics w st = (st, none)) := by
  have hval : (s.recordNetworkProtoCounterMetrics w st).2 =
      (if anyUDPEnabled s.config.Metrics then
        match w.ProtoCountersWithContext s.backgroundCtx ["udp"] with
        | .error err => some (.wrapf "failed to read network proto counters" err)
        | .ok [] => some (.errorf "no network proto counters available")
        | .ok (_ :: _) => none
       else none) := by
    simp only [Scraper.recordNetworkProtoCounterMetrics, anyUDPEnabled]
    by_cases hen : (s.config.Metrics.SystemNetworkUDPDatagrams.Enabled ||
        s.config.Metrics.SystemNetworkUDPBufErrors.Enabled ||
        s.config.Metrics.SystemNetworkUDPErrors.Enabled ||
        s.config.Metrics.SystemNetworkUDPNoPorts.Enabled) = true
    · simp only [hen, Bool.not_true, if_true]
      rcases hq : w.ProtoCountersWithContext s.backgroundCtx ["udp"] with err | l
      · simp
      · cases l <;> simp
    · simp [hen]
  refine ⟨?_, hval, rfl, ?_, ?_⟩
  · rw [hval]
    by_cases hen : anyUDPEnabled s.config.Metrics = true
    · rcases hq : w.ProtoCountersWithContext s.backgroundCtx ["udp"] with err | l
      · simp [hen]
      · cases l <;> simp [hen]
    · simp [hen]
  · intro err h
    cases h
  · simp only [Scraper.recordNetworkProtoCounterMetrics, anyUDPEnabled]
    by_cases hen : (s.config.Metrics.SystemNetworkUDPDatagrams.Enabled ||
        s.config.Metrics.SystemNetworkUDPBufErrors.Enabled ||
        s.config.Metrics.SystemNetworkUDPErrors.Enabled ||
        s.config.Metrics.SystemNetworkUDPNoPorts.Enabled) = true
    · simp only [hen, Bool.not_true, if_true]
      rcases hq : w.ProtoCountersWithContext s.backgroundCtx ["udp"] with err | l
      · simp
      · cases l <;> simp
    · simp [hen]

/-- Claim C7: for every non-empty list of protocol counter records and every setting of
the four UDP flags, the UDP group records, for each record in order, two datagram points
(`OutDatagrams` transmit, `InDatagrams` receive) if datagrams is enabled, two buffer-error
points (`SndbufErrors` transmit, `RcvbufErrors` receive) if buffer-errors is enabled, one
point `InErrors` in the UDP errors series if errors is enabled, and one point `NoPorts` in
that same UDP errors series if no-ports is enabled; a counter name missing from `Stats`
reads as 0; nothing else is recorded and no error is returned. -/
theorem recordNetworkProtoCounterMetrics_points (s : Scraper) (w : World) (st : Run)
    (c : ProtoCountersStat) (cs : List ProtoCountersStat) :
    let w1 : World := { w with ProtoCountersWithContext := fun _ _ => .ok (c :: cs) }
    (s.recordNetworkProtoCounterMetrics w1 st).2 = none ∧
    (s.recordNetworkProtoCounterMetrics w1 st).1.mb =
      { st.mb with recorded := st.mb.recorded ++
          (c :: cs).flatMap (expectedUDPPoints s.config.Metrics w.nowProto) } ∧
    (∀ (stats : GoMap) (name : String), name ∉ stats.keys → stats.get name = 0) := by
  intro w1
  have hloop := protoLoop_eq s.config.Metrics w.nowProto (c :: cs) st.mb
  refine ⟨?_, ?_, ?_⟩
  · simp only [Scraper.recordNetworkProtoCounterMetrics]
    split <;> simp [w1]
  · simp only [Scraper.recordNetworkProtoCounterMetrics]
    split
    · next hdis =>
      have hnone : ∀ x, expectedUDPPoints s.config.Metrics w.nowProto x = [] := by
        intro x
        simp only [Bool.not_eq_true', Bool.or_eq_false_iff] at hdis
        simp [expectedUDPPoints, hdis.1.1.1, hdis.1.1.2, hdis.1.2, hdis.2]
      have hall : ∀ l : List ProtoCountersStat,
          l.flatMap (expectedUDPPoints s.config.Metrics w.nowProto) = [] := by
        intro l
        induction l with
        | nil => rfl
        | cons x xs ih => simp [List.flatMap_cons, hnone, ih]
      simp [hall]
    · simp only [w1, List.length_cons, Nat.add_one_ne_zero, if_false]
      exact hloop
  · intro stats name hname
    induction stats with
    | nil => rfl
    | cons e m ih =>
      obtain ⟨k, v⟩ := e
      simp only [GoMap.keys, List.map_cons, List.mem_cons, not_or] at hname
      have hk : ¬ k = name := fun h => hname.1 h.symm
      simp only [GoMap.get, hk, if_false]
      exact ih hname.2

/-! ## The counter group -/

/-- The eight data points expected for one interface record: packets, dropped, errors
and io, each as a transmit point and a receive point carrying the interface name; the
values are the `int64` conversions of the source counters. -/
def expectedCounterPoints (now : Nat) (io : IOCountersStat) : List DataPoint :=
  [⟨.packets, now, toInt64 io.PacketsSent, some io.Name, some .transmit, none, none⟩,
   ⟨.packets, now, toInt64 io.PacketsRecv, some io.Name, some .receive, none, none⟩,
   ⟨.dropped, now, toInt64 io.Dropout, some io.Name, some .transmit, none, none⟩,
   ⟨.dropped, now, toInt64 io.Dropin, some io.Name, some .receive, none, none⟩,
   ⟨.errors, now, toInt64 io.Errout, some io.Name, some .transmit, none, none⟩,
   ⟨.errors, now, toInt64 io.Errin, some io.Name, some .receive, none, none⟩,
   ⟨.io, now, toInt64 io.BytesSent, some io.Name, some .transmit, none, none⟩,
   ⟨.io, now, toInt64 io.BytesRecv, some io.Name, some .receive, none, none⟩]

/-- Whether a counter family is enabled in a metrics configuration; the series outside
the counter group are not gated by the builder. -/
def counterFamilyEnabled (cfg : MetricsConfig) : Metric → Bool
  | .packets => cfg.SystemNetworkPackets.Enabled
  | .dropped => cfg.SystemNetworkDropped.Enabled
  | .errors => cfg.SystemNetworkErrors.Enabled
  | .io => cfg.SystemNetworkIo.Enabled
  | _ => true

/-- The points of one interface record that a builder with configuration `cfg` keeps:
those of the eight expected points whose family is enabled. -/
def keptCounterPoints (cfg : MetricsConfig) (now : Nat) (io : IOCountersStat) :
    List DataPoint :=
  (expectedCounterPoints now io).filter (fun p => counterFamilyEnabled cfg p.metric)

/-- A counter below `2 ^ 63` keeps its value under the conversion `int64(x)`. -/
theorem toInt64_of_lt (n : Nat) (h : n < 2 ^ 63) : toInt64 n = (n : Int) := by
  have h64 : n % 2 ^ 64 = n := Nat.mod_eq_of_lt (by omega)
  unfold toInt64
  rw [h64, if_pos h]

/-- A loop whose body appends the points `g x` to the builder appends, over a whole
slice, the points of every element in order. -/
theorem recordLoop_eq {α : Type} (step : MetricsBuilder → α → MetricsBuilder)
    (g : α → List DataPoint)
    (hstep : ∀ mb x, step mb x = { mb with recorded := mb.recorded ++ g x })
    (xs : List α) (mb : MetricsBuilder) :
    xs.foldl step mb = { mb with recorded := mb.recorded ++ xs.flatMap g } := by
  induction xs generalizing mb with
  | nil => simp
  | cons x xs ih =>
    rw [List.foldl_cons, ih, hstep]
    simp [List.flatMap_cons, List.append_assoc]

/-- A loop whose body appends points that depend on the builder's configuration, which
the body leaves alone, appends the points of every element in order. -/
theorem gatedLoop_eq {α : Type} (step : MetricsBuilder → α → MetricsBuilder)
    (g : MetricsBuilderConfig → α → List DataPoint)
    (hstep : ∀ mb x, step mb x = { mb with recorded := mb.recorded ++ g mb.config x })
    (xs : List α) (mb : MetricsBuilder) :
    xs.foldl step mb = { mb with recorded := mb.recorded ++ xs.flatMap (g mb.config) } := by
  induction xs generalizing mb with
  | nil => simp
  | cons x xs ih =>
    rw [List.foldl_cons, ih, hstep]
    simp [List.flatMap_cons, List.append_assoc]

/-- The packets loop keeps two points per record if the packets family is enabled. -/
theorem recordNetworkPacketsMetric_eq (mb : MetricsBuilder) (now : Nat)
    (xs : List IOCountersStat) :
    recordNetworkPacketsMetric mb now xs =
      { mb with recorded := mb.recorded ++ xs.flatMap (fun io =>
          ((expectedCounterPoints now io).take 2).filter
            (fun p => counterFamilyEnabled mb.config.Metrics p.metric)) } := by
  unfold recordNetworkPacketsMetric
  rw [gatedLoop_eq _ (fun cfg io => ((expectedCounterPoints now io).take 2).filter
        (fun p => counterFamilyEnabled cfg.Metrics p.metric)) (by
    intro mb x
    cases hf : mb.config.Metrics.SystemNetworkPackets.Enabled <;>
      simp [MetricsBuilder.RecordSystemNetworkPacketsDataPoint, MetricsBuilder.record,
        expectedCounterPoints, counterFamilyEnabled, hf])]

/-- The dropped loop keeps two points per record if the dropped family is enabled. -/
theorem recordNetworkDroppedPacketsMetric_eq (mb : MetricsBuilder) (now : Nat)
    (xs : List IOCountersStat) :
    recordNetworkDroppedPacketsMetric mb now xs =
      { mb with recorded := mb.recorded ++ xs.flatMap (fun io =>
          (((expectedCounterPoints now io).drop 2).take 2).filter
            (fun p => counterFamilyEnabled mb.config.Metrics p.metric)) } := by
  unfold recordNetworkDroppedPacketsMetric
  rw [gatedLoop_eq _ (fun cfg io => (((expectedCounterPoints now io).drop 2).take 2).filter
        (fun p => counterFamilyEnabled cfg.Metrics p.metric)) (by
    intro mb x
    cases hf : mb.config.Metrics.SystemNetworkDropped.Enabled <;>
      simp [MetricsBuilder.RecordSystemNetworkDroppedDataPoint, MetricsBuilder.record,
        expectedCounterPoints, counterFamilyEnabled, hf])]

/-- The errors loop keeps two points per record if the errors family is enabled. -/
theorem recordNetworkErrorPacketsMetric_eq (mb : MetricsBuilder) (now : Nat)
    (xs : List IOCountersStat) :
    recordNetworkErrorPacketsMetric mb now xs =
      { mb with recorded := mb.recorded ++ xs.flatMap (fun io =>
          (((expectedCounterPoints now io).drop 4).take 2).filter
            (fun p => counterFamilyEnabled mb.config.Metrics p.metric)) } := by
  unfold recordNetworkErrorPacketsMetric
  rw [gatedLoop_eq _ (fun cfg io => (((expectedCounterPoints now io).drop 4).take 2).filter
        (fun p => counterFamilyEnabled cfg.Metrics p.metric)) (by
    intro mb x
    cases hf : mb.config.Metrics.SystemNetworkErrors.Enabled <;>
      simp [MetricsBuilder.RecordSystemNetworkErrorsDataPoint, MetricsBuilder.record,
        expectedCounterPoints, counterFamilyEnabled, hf])]

/-- The io loop keeps two points per record if the io family is enabled. -/
theorem recordNetworkIOMetric_eq (mb : MetricsBuilder) (now : Nat)
    (xs : List IOCountersStat) :
    recordNetworkIOMetric mb now xs =
      { mb with recorded := mb.recorded ++ xs.flatMap (fun io =>
          ((expectedCounterPoints now io).drop 6).filter
            (fun p => counterFamilyEnabled mb.config.Metrics p.metric)) } := by
  unfold recordNetworkIOMetric
  rw [gatedLoop_eq _ (fun cfg io => ((expectedCounterPoints now io).drop 6).filter
        (fun p => counterFamilyEnabled cfg.Metrics p.metric)) (by
    intro mb x
    cases hf : mb.config.Metrics.SystemNetworkIo.Enabled <;>
      simp [MetricsBuilder.RecordSystemNetworkIoDataPoint, MetricsBuilder.record,
        expectedCounterPoints, counterFamilyEnabled, hf])]

/-- The points the four loops of the counter group add for a slice of records, in the
order the loops add them: family by family. -/
def counterLoopPoints (cfg : MetricsConfig) (now : Nat) (xs : List IOCountersStat) :
    List DataPoint :=
  xs.flatMap (fun io => ((expectedCounterPoints now io).take 2).filter
    (fun p => counterFamilyEnabled cfg p.metric)) ++
  xs.flatMap (fun io => (((expectedCounterPoints now io).drop 2).take 2).filter
    (fun p => counterFamilyEnabled cfg p.metric)) ++
  xs.flatMap (fun io => (((expectedCounterPoints now io).drop 4).take 2).filter
    (fun p => counterFamilyEnabled cfg p.metric)) ++
  xs.flatMap (fun io => ((expectedCounterPoints now io).drop 6).filter
    (fun p => counterFamilyEnabled cfg p.metric))

/-- The four loops of the counter group, one after the other, add the kept packets points
of all records, then the kept dropped, errors and io points. -/
theorem counterLoops_eq (now : Nat) (xs : List IOCountersStat) (mb : MetricsBuilder) :
    recordNetworkIOMetric
      (recordNetworkErrorPacketsMetric
        (recordNetworkDroppedPacketsMetric (recordNetworkPacketsMetric mb now xs) now xs)
        now xs) now xs =
    { mb with recorded := mb.recorded ++ counterLoopPoints mb.config.Metrics now xs } := by
  rw [recordNetworkIOMetric_eq, recordNetworkErrorPacketsMetric_eq,
    recordNetworkDroppedPacketsMetric_eq, recordNetworkPacketsMetric_eq]
  simp [counterLoopPoints, List.append_assoc]

/-- Grouping the kept points family by family is a rearrangement of grouping them
interface by interface. -/
theorem counterPoints_perm (cfg : MetricsConfig) (now : Nat) (xs : List IOCountersStat) :
    (counterLoopPoints cfg now xs).Perm (xs.flatMap (keptCounterPoints cfg now)) := by
  unfold counterLoopPoints
  refine (List.Perm.append_right _ (List.Perm.append_right _
    (List.flatMap_append_perm xs _ _))).trans ?_
  refine (List.Perm.append_right _ (List.flatMap_append_perm xs _ _)).trans ?_
  refine (List.flatMap_append_perm xs _ _).trans ?_
  have hfun : (fun io =>
      ((((expectedCounterPoints now io).take 2).filter
          (fun p => counterFamilyEnabled cfg p.metric) ++
        (((expectedCounterPoints now io).drop 2).take 2).filter
          (fun p => counterFamilyEnabled cfg p.metric)) ++
        (((expectedCounterPoints now io).drop 4).take 2).filter
          (fun p => counterFamilyEnabled cfg p.metric)) ++
        ((expectedCounterPoints now io).drop 6).filter
          (fun p => counterFamilyEnabled cfg p.metric)) = keptCounterPoints cfg now := by
    funext io
    simp only [keptCounterPoints, ← List.filter_append]
    rfl
  rw [hfun]

/-- With the four counter families enabled the builder keeps all eight points. -/
theorem keptCounterPoints_of_enabled (cfg : MetricsConfig) (now : Nat)
    (hp : cfg.SystemNetworkPackets.Enabled = true)
    (hd : cfg.SystemNetworkDropped.Enabled = true)
    (he : cfg.SystemNetworkErrors.Enabled = true)
    (hi : cfg.SystemNetworkIo.Enabled = true) :
    keptCounterPoints cfg now = expectedCounterPoints now := by
  funext io
  simp [keptCounterPoints, expectedCounterPoints, counterFamilyEnabled, hp, hd, he, hi]

/-- Among the points expected for a list of records, those carrying a given interface
name number eight per record of that name. -/
theorem counterPoints_count (now : Nat) (name : String) (xs : List IOCountersStat) :
    ((xs.flatMap (expectedCounterPoints now)).filter (fun p => p.device == some name)).length =
      8 * (xs.filter (fun io => io.Name == name)).length := by
  induction xs with
  | nil => rfl
  | cons x xs ih =>
    rw [List.flatMap_cons, List.filter_append, List.length_append, ih]
    by_cases hx : x.Name = name
    · simp [expectedCounterPoints, List.filter_cons, hx]
      omega
    · simp [expectedCounterPoints, List.filter_cons, hx]

/-- The counter group for any configuration of the builder: a failing query leaves the
builder alone and returns the wrapped error; a successful one returns no error and adds,
for the records that survive `filterByInterface`, the points of the enabled families. -/
theorem recordNetworkCounterMetrics_kept (s : Scraper) (w : World) (st : Run) :
    match s.ioCounters s.backgroundCtx true with
    | .error err =>
      s.recordNetworkCounterMetrics w st =
        ({ st with calls := st.calls ++ [QueryCall.ioCounters s.backgroundCtx true] },
          some (.wrapf "failed to read network IO stats" err))
    | .ok ioCounters =>
      let new := counterLoopPoints st.mb.config.Metrics w.nowCounters
        (s.filterByInterface ioCounters)
      s.recordNetworkCounterMetrics w st =
        ({ mb := { st.mb with recorded := st.mb.recorded ++ new },
           calls := st.calls ++ [QueryCall.ioCounters s.backgroundCtx true] }, none) := by
  rcases hq : s.ioCounters s.backgroundCtx true with err | ioCounters
  · simp [Scraper.recordNetworkCounterMetrics, hq]
  · simp only [Scraper.recordNetworkCounterMetrics, hq]
    split
    · rw [counterLoops_eq]
    · next hlen =>
      have hnil : s.filterByInterface ioCounters = [] := by
        cases hfl : s.filterByInterface ioCounters with
        | nil => rfl
        | cons a l => simp [hfl] at hlen
      simp [hnil, counterLoopPoints]

/-- Claim C5: with the four counter families (packets, dropped, errors, io) enabled in the
builder's configuration, as they are by default: when the IO-counters query fails the
counter group records no point and returns the wrapped query error; when it succeeds the
group returns no error and records, for each interface that survives `filterByInterface`,
exactly the eight points carrying that interface's name (packets, dropped, errors and io,
each transmit and receive, from PacketsSent/PacketsRecv, Dropout/Dropin, Errout/Errin,
BytesSent/BytesRecv), and no point for any other interface; an empty filtered set records
nothing and is not an error. -/
theorem recordNetworkCounterMetrics_points (s : Scraper) (w : World) (st : Run)
    (hp : st.mb.config.Metrics.SystemNetworkPackets.Enabled = true)
    (hd : st.mb.config.Metrics.SystemNetworkDropped.Enabled = true)
    (he : st.mb.config.Metrics.SystemNetworkErrors.Enabled = true)
    (hi : st.mb.config.Metrics.SystemNetworkIo.Enabled = true) :
    match s.ioCounters s.backgroundCtx true with
    | .error err =>
      (s.recordNetworkCounterMetrics w st).2 =
        some (.wrapf "failed to read network IO stats" err) ∧
      (s.recordNetworkCounterMetrics w st).1.mb = st.mb
    | .ok ioCounters =>
      (s.recordNetworkCounterMetrics w st).2 = none ∧
      ∃ new : List DataPoint,
        (s.recordNetworkCounterMetrics w st).1.mb =
          { st.mb with recorded := st.mb.recorded ++ new } ∧
        new.Perm ((s.filterByInterface ioCounters).flatMap
          (expectedCounterPoints w.nowCounters)) ∧
        (∀ name : String,
          (new.filter (fun p => p.device == some name)).length =
            8 * ((s.filterByInterface ioCounters).filter (fun io => io.Name == name)).length) ∧
        (∀ p ∈ new, ∃ io ∈ s.filterByInterface ioCounters, p.device = some io.Name) ∧
        (s.filterByInterface ioCounters = [] → new = []) := by
  have hkept := recordNetworkCounterMetrics_kept s w st
  rcases hq : s.ioCounters s.backgroundCtx true with err | ioCounters
  · rw [hq] at hkept
    simp only at hkept ⊢
    rw [hkept]
    exact ⟨rfl, rfl⟩
  · rw [hq] at hkept
    simp only at hkept ⊢
    have hperm : (counterLoopPoints st.mb.config.Metrics w.nowCounters
        (s.filterByInterface ioCounters)).Perm
        ((s.filterByInterface ioCounters).flatMap (expectedCounterPoints w.nowCounters)) := by
      have h := counterPoints_perm st.mb.config.Metrics w.nowCounters
        (s.filterByInterface ioCounters)
      rwa [keptCounterPoints_of_enabled _ _ hp hd he hi] at h
    refine ⟨by rw [hkept], _, by rw [hkept], hperm, ?_, ?_, ?_⟩
    · intro name
      rw [(hperm.filter _).length_eq]
      exact counterPoints_count w.nowCounters name _
    · intro p hp2
      have hp3 := hperm.mem_iff.mp hp2
      rw [List.mem_flatMap] at hp3
      obtain ⟨io, hio, hpio⟩ := hp3
      refine ⟨io, hio, ?_⟩
      simp only [expectedCounterPoints, List.mem_cons, List.mem_singleton] at hpio
      rcases hpio with h | h | h | h | h | h | h | h | h <;> first | (rw [h]) | (cases h)
    · intro hnil
      rw [hnil]
      rfl

/-! ## Maps -/

/-- The sum of all values stored in a map. -/
def GoMap.total (m : GoMap) : Int :=
  (m.map Prod.snd).sum

theorem GoMap.mem_keys_set (m : GoMap) (k : String) (v : Int) (x : String) :
    x ∈ GoMap.keys (GoMap.set m k v) ↔ x ∈ GoMap.keys m ∨ x = k := by
  induction m with
  | nil => simp [GoMap.set, GoMap.keys]
  | cons e m ih =>
    obtain ⟨k1, v1⟩ := e
    by_cases hk : k1 = k
    · subst hk
      simp only [GoMap.set, GoMap.keys, if_true, List.map_cons, List.mem_cons]
      tauto
    · simp only [GoMap.keys, List.map_cons, List.mem_cons] at ih ⊢
      simp only [GoMap.set, hk, if_false, List.map_cons, List.mem_cons, ih]
      tauto

theorem GoMap.nodup_keys_set (m : GoMap) (k : String) (v : Int)
    (h : (GoMap.keys m).Nodup) : (GoMap.keys (GoMap.set m k v)).Nodup := by
  induction m with
  | nil => simp [GoMap.set, GoMap.keys]
  | cons e m ih =>
    obtain ⟨k1, v1⟩ := e
    by_cases hk : k1 = k
    · subst hk
      simpa [GoMap.set, GoMap.keys] using h
    · have h1 : k1 ∉ GoMap.keys m ∧ (GoMap.keys m).Nodup := by
        simpa [GoMap.keys] using h
      have hmem := GoMap.mem_keys_set m k v k1
      have hnot : k1 ∉ GoMap.keys (GoMap.set m k v) := by
        rw [hmem]
        rintro (hin | heq)
        · exact h1.1 hin
        · exact hk heq
      have hrec := ih h1.2
      simp only [GoMap.set, hk, if_false]
      show (k1 :: GoMap.keys (GoMap.set m k v)).Nodup
      exact List.nodup_cons.mpr ⟨hnot, hrec⟩

theorem GoMap.total_set (m : GoMap) (k : String) (v : Int) :
    GoMap.total (GoMap.set m k v) = GoMap.total m - GoMap.get m k + v := by
  induction m with
  | nil => simp [GoMap.set, GoMap.total, GoMap.get]
  | cons e m ih =>
    obtain ⟨k1, v1⟩ := e
    by_cases hk : k1 = k
    · subst hk
      simp only [GoMap.set, GoMap.total, GoMap.get, if_true, List.map_cons, List.sum_cons]
      omega
    · simp only [GoMap.total, List.map_cons, List.sum_cons] at ih ⊢
      simp only [GoMap.set, GoMap.get, hk, if_false, List.map_cons, List.sum_cons, ih]
      omega

theorem GoMap.get_bounds (m : GoMap) (hm : ∀ e ∈ m, 0 ≤ e.2) (k : String) :
    0 ≤ GoMap.get m k ∧ GoMap.get m k ≤ GoMap.total m ∧ 0 ≤ GoMap.total m := by
  induction m with
  | nil => simp [GoMap.get, GoMap.total]
  | cons e m ih =>
    obtain ⟨k1, v1⟩ := e
    have hv1 : 0 ≤ v1 := hm (k1, v1) (List.mem_cons_self _ _)
    have hrec := ih (fun e he => hm e (List.mem_cons_of_mem _ he))
    simp only [GoMap.total, List.map_cons, List.sum_cons] at hrec ⊢
    by_cases hk : k1 = k
    · simp only [GoMap.get, hk, if_true]
      omega
    · simp only [GoMap.get, hk, if_false]
      omega

theorem GoMap.forall_set (P : Int → Prop) (m : GoMap) (k : String) (v : Int)
    (hm : ∀ e ∈ m, P e.2) (hv : P v) : ∀ e ∈ GoMap.set m k v, P e.2 := by
  induction m with
  | nil =>
    intro e he
    simp only [GoMap.set, List.mem_singleton] at he
    rw [he]
    exact hv
  | cons e1 m ih =>
    obtain ⟨k1, v1⟩ := e1
    intro e he
    by_cases hk : k1 = k
    · simp only [GoMap.set, hk, if_true, List.mem_cons] at he
      rcases he with he | he
      · rw [he]
        exact hv
      · exact hm e (List.mem_cons_of_mem _ he)
    · simp only [GoMap.set, hk, if_false, List.mem_cons] at he
      rcases he with he | he
      · rw [he]
        exact hm (k1, v1) (List.mem_cons_self _ _)
      · exact ih (fun e he => hm e (List.mem_cons_of_mem _ he)) e he

/-- An `int64` addition whose exact result lies in `[0, 2^63)` does not wrap. -/
theorem wrapInt64_of_range (i : Int) (h0 : 0 ≤ i) (h1 : i < 2 ^ 63) : wrapInt64 i = i := by
  unfold wrapInt64
  rw [Int.emod_eq_of_lt (by omega) (by omega)]
  omega

/-! ## TCP connection state counts -/

/-- The seeding loop of `getTCPConnectionStatusCounts`: every entry is zero, the keys are
the keys it started from together with the states, without repetition. -/
theorem seedLoop_spec (states : List String) (acc : GoMap)
    (hz : ∀ e ∈ acc, e.2 = 0) (hn : (GoMap.keys acc).Nodup) :
    (∀ e ∈ states.foldl (fun m state => GoMap.set m state 0) acc, e.2 = 0) ∧
    (GoMap.keys (states.foldl (fun m state => GoMap.set m state 0) acc)).Nodup ∧
    (∀ k, k ∈ GoMap.keys (states.foldl (fun m state => GoMap.set m state 0) acc) ↔
      k ∈ GoMap.keys acc ∨ k ∈ states) := by
  induction states generalizing acc with
  | nil => exact ⟨hz, hn, fun k => by simp⟩
  | cons st states ih =>
    have h := ih (GoMap.set acc st 0)
      (GoMap.forall_set (fun v => v = 0) acc st 0 hz rfl)
      (GoMap.nodup_keys_set acc st 0 hn)
    refine ⟨h.1, h.2.1, ?_⟩
    intro k
    rw [List.foldl_cons, h.2.2 k, GoMap.mem_keys_set, List.mem_cons]
    tauto

/-- The counting loop of `getTCPConnectionStatusCounts` keeps the keys it started from
and adds the statuses it meets. -/
theorem countLoop_keys (cs : List ConnectionStat) (m : GoMap) :
    ((GoMap.keys m).Nodup →
      (GoMap.keys (cs.foldl (fun m connection =>
        GoMap.set m connection.Status (wrapInt64 (GoMap.get m connection.Status + 1))) m)).Nodup) ∧
    (∀ k, k ∈ GoMap.keys (cs.foldl (fun m connection =>
        GoMap.set m connection.Status (wrapInt64 (GoMap.get m connection.Status + 1))) m) ↔
      k ∈ GoMap.keys m ∨ ∃ c ∈ cs, c.Status = k) := by
  induction cs generalizing m with
  | nil => simp
  | cons c cs ih =>
    have h := ih (GoMap.set m c.Status (wrapInt64 (GoMap.get m c.Status + 1)))
    refine ⟨fun hn => h.1 (GoMap.nodup_keys_set _ _ _ hn), ?_⟩
    intro k
    rw [List.foldl_cons, h.2 k, GoMap.mem_keys_set]
    simp only [List.mem_cons, exists_eq_or_imp]
    constructor
    · rintro ((h1 | h1) | h1)
      · exact Or.inl h1
      · exact Or.inr (Or.inl h1.symm)
      · exact Or.inr (Or.inr h1)
    · rintro (h1 | h1 | h1)
      · exact Or.inl (Or.inl h1)
      · exact Or.inl (Or.inr h1.symm)
      · exact Or.inr h1

/-- The counting loop of `getTCPConnectionStatusCounts`, as long as the number of
connections stays below `2 ^ 63`: counts stay non-negative and their sum grows by one
per connection. -/
theorem countLoop_total (cs : List ConnectionStat) (m : GoMap) (n : Nat)
    (hnn : ∀ e ∈ m, 0 ≤ e.2) (hsum : GoMap.total m = n) (hb : n + cs.length < 2 ^ 63) :
    (∀ e ∈ cs.foldl (fun m connection =>
        GoMap.set m connection.Status (wrapInt64 (GoMap.get m connection.Status + 1))) m,
      0 ≤ e.2) ∧
    GoMap.total (cs.foldl (fun m connection =>
        GoMap.set m connection.Status (wrapInt64 (GoMap.get m connection.Status + 1))) m) =
      ((n + cs.length : Nat) : Int) := by
  induction cs generalizing m n with
  | nil => exact ⟨hnn, by simpa using hsum⟩
  | cons c cs ih =>
    have hlen : (c :: cs).length = cs.length + 1 := rfl
    rw [hlen] at hb
    have hg := GoMap.get_bounds m hnn c.Status
    have hw : wrapInt64 (GoMap.get m c.Status + 1) = GoMap.get m c.Status + 1 := by
      apply wrapInt64_of_range
      · omega
      · have : ((n + (cs.length + 1) : Nat) : Int) < 2 ^ 63 := by exact_mod_cast hb
        push_cast at this
        omega
    have h := ih (GoMap.set m c.Status (wrapInt64 (GoMap.get m c.Status + 1))) (n + 1)
      (GoMap.forall_set (fun v => 0 ≤ v) m c.Status _ hnn (by rw [hw]; omega))
      (by rw [GoMap.total_set, hw, hsum]; push_cast; omega)
      (by omega)
    rw [List.foldl_cons]
    refine ⟨h.1, ?_⟩
    rw [h.2, hlen]
    push_cast
    omega

/-- Claim C3: for every list of TCP connections (a Go slice, so shorter than `2 ^ 63`),
the map returned by `getTCPConnectionStatusCounts` has every known TCP state as a key,
every count in it is non-negative, and the counts sum to the length of the list; no key
occurs twice. -/
theorem getTCPConnectionStatusCounts_total (allTCPStates : List String)
    (connections : List ConnectionStat) (hlen : connections.length < 2 ^ 63) :
    (∀ state ∈ allTCPStates,
      state ∈ GoMap.keys (getTCPConnectionStatusCounts allTCPStates connections)) ∧
    (∀ e ∈ getTCPConnectionStatusCounts allTCPStates connections, 0 ≤ e.2) ∧
    GoMap.total (getTCPConnectionStatusCounts allTCPStates connections) =
      (connections.length : Int) ∧
    (GoMap.keys (getTCPConnectionStatusCounts allTCPStates connections)).Nodup := by
  have hseed := seedLoop_spec allTCPStates [] (by simp) (by simp [GoMap.keys])
  have hkeys := countLoop_keys connections
    (allTCPStates.foldl (fun m state => GoMap.set m state 0) [])
  have hzero : GoMap.total (allTCPStates.foldl (fun m state => GoMap.set m state 0) []) =
      ((0 : Nat) : Int) := by
    have hall := hseed.1
    generalize allTCPStates.foldl (fun m state => GoMap.set m state 0) [] = m at hall
    induction m with
    | nil => rfl
    | cons e m ih =>
      have he := hall e (List.mem_cons_self _ _)
      have hrec := ih (fun e he => hall e (List.mem_cons_of_mem _ he))
      simp only [GoMap.total, List.map_cons, List.sum_cons] at hrec ⊢
      rw [he, hrec]
      rfl
  have htot := countLoop_total connections
    (allTCPStates.foldl (fun m state => GoMap.set m state 0) []) 0
    (fun e he => by rw [hseed.1 e he]) hzero (by omega)
  unfold getTCPConnectionStatusCounts
  refine ⟨?_, htot.1, ?_, hkeys.1 hseed.2.1⟩
  · intro state hstate
    exact (hkeys.2 state).mpr (Or.inl ((hseed.2.2 state).mpr (Or.inr hstate)))
  · rw [htot.2]
    simp

/-- A state vocabulary to evaluate the functions on: twelve TCP state names. -/
def sampleTCPStates : List String :=
  ["CLOSE_WAIT", "CLOSE", "CLOSING", "DELETE", "ESTABLISHED", "FIN_WAIT_1", "FIN_WAIT_2",
   "LAST_ACK", "LISTEN", "SYN_SENT", "SYN_RECV", "TIME_WAIT"]

/-- Three connections in known states. -/
def sampleConnections : List ConnectionStat :=
  [{ Status := "LISTEN", Pid := 1 }, { Status := "ESTABLISHED", Pid := 2 },
   { Status := "LISTEN", Pid := 3 }]

/-- Claim C3, witness: three sample connections meet the length bound, and the map built
from them has every sample state as a key, non-negative counts that sum to three, and no
repeated key. -/
theorem getTCPConnectionStatusCounts_total_witness :
    sampleConnections.length < 2 ^ 63 ∧
    ((∀ state ∈ sampleTCPStates,
      state ∈ GoMap.keys (getTCPConnectionStatusCounts sampleTCPStates sampleConnections)) ∧
    (∀ e ∈ getTCPConnectionStatusCounts sampleTCPStates sampleConnections, 0 ≤ e.2) ∧
    GoMap.total (getTCPConnectionStatusCounts sampleTCPStates sampleConnections) =
      (sampleConnections.length : Int) ∧
    (GoMap.keys (getTCPConnectionStatusCounts sampleTCPStates sampleConnections)).Nodup) :=
  ⟨by simp [sampleConnections],
   getTCPConnectionStatusCounts_total sampleTCPStates sampleConnections
     (by simp [sampleConnections])⟩

/-- One connections data point per entry of a state-count map, labelled with protocol tcp
and the entry's key and carrying the entry's count. -/
def connectionPoints (now : Nat) (m : GoMap) : List DataPoint :=
  m.map (fun e => ⟨.connections, now, e.2, none, none, some AttributeProtocolTcp, some e.1⟩)

/-- The loop of `recordNetworkConnectionsMetric` records one connections point per entry
of the map, labelled with protocol tcp and the entry's key. -/
theorem recordNetworkConnectionsMetric_eq (mb : MetricsBuilder) (now : Nat) (m : GoMap) :
    recordNetworkConnectionsMetric mb now m =
      { mb with recorded := mb.recorded ++ connectionPoints now m } := by
  unfold recordNetworkConnectionsMetric
  rw [recordLoop_eq _
    (fun e : String × Int =>
      [(⟨.connections, now, e.2, none, none, some AttributeProtocolTcp, some e.1⟩ : DataPoint)])
    (by
      intro mb x
      simp [MetricsBuilder.RecordSystemNetworkConnectionsDataPoint, MetricsBuilder.record])]
  congr 2
  unfold connectionPoints
  induction m with
  | nil => rfl
  | cons e m ih => simp [List.flatMap_cons, ih]

/-- Claim C4, counterexample: a connection whose status is outside the vocabulary adds a
key. Over the twelve sample states, one connection with status "NONE" yields a map whose key set is not the set of
known states, and thirteen data points. -/
theorem getTCPConnectionStatusCounts_extra_key :
    ¬ (∀ k, k ∈ GoMap.keys (getTCPConnectionStatusCounts sampleTCPStates
          [{ Status := "NONE", Pid := 1 }]) ↔ k ∈ sampleTCPStates) ∧
    sampleTCPStates.length = 12 ∧
    (recordNetworkConnectionsMetric (NewMetricsBuilder DefaultMetricsBuilderConfig "" 0) 0
      (getTCPConnectionStatusCounts sampleTCPStates
        [{ Status := "NONE", Pid := 1 }])).recorded.length = 13 := by
  refine ⟨?_, rfl, ?_⟩
  · intro h
    have h1 : "NONE" ∈ GoMap.keys (getTCPConnectionStatusCounts sampleTCPStates
        [{ Status := "NONE", Pid := 1 }]) := by
      have := (countLoop_keys [{ Status := "NONE", Pid := 1 }]
        (sampleTCPStates.foldl (fun m state => GoMap.set m state 0) [])).2 "NONE"
      exact this.mpr (Or.inr ⟨_, List.mem_singleton.mpr rfl, rfl⟩)
    have h2 : "NONE" ∉ sampleTCPStates := by decide
    exact h2 ((h "NONE").mp h1)
  · rw [recordNetworkConnectionsMetric_eq]
    simp [NewMetricsBuilder, connectionPoints, getTCPConnectionStatusCounts, sampleTCPStates,
      GoMap.set]

/-- Claim C4, amended: the key set of the map built by `getTCPConnectionStatusCounts` is
the set of known TCP states together with every status that occurs in the connection
list, each key once; the connections group, when its metric is enabled and the query
succeeds, issues one query and records exactly one data point per key of that map,
labelled protocol tcp and that key, and does nothing when the metric is disabled; for the
empty connection list the keys are exactly the known states and every value is 0. -/
theorem getTCPConnectionStatusCounts_keys (s : Scraper) (w : World) (st : Run)
    (connections : List ConnectionStat) :
    let s1 : Scraper := { s with connections := fun _ _ => .ok connections }
    let counts : GoMap := getTCPConnectionStatusCounts w.allTCPStates connections
    (∀ k, k ∈ GoMap.keys (getTCPConnectionStatusCounts w.allTCPStates connections) ↔
      k ∈ w.allTCPStates ∨ ∃ c ∈ connections, c.Status = k) ∧
    (GoMap.keys (getTCPConnectionStatusCounts w.allTCPStates connections)).Nodup ∧
    (if s.config.Metrics.SystemNetworkConnections.Enabled then
      s1.recordNetworkConnectionsMetrics w st =
        ({ mb := { st.mb with
                    recorded := st.mb.recorded ++ connectionPoints w.nowConnections counts },
           calls := st.calls ++ [QueryCall.connections s.backgroundCtx "tcp"] }, none)
     else s1.recordNetworkConnectionsMetrics w st = (st, none)) ∧
    (∀ k, k ∈ GoMap.keys (getTCPConnectionStatusCounts w.allTCPStates []) ↔
      k ∈ w.allTCPStates) ∧
    (∀ e ∈ getTCPConnectionStatusCounts w.allTCPStates [], e.2 = 0) := by
  intro s1 counts
  have hseed := seedLoop_spec w.allTCPStates [] (by simp) (by simp [GoMap.keys])
  have hkeys := countLoop_keys connections
    (w.allTCPStates.foldl (fun m state => GoMap.set m state 0) [])
  refine ⟨?_, hkeys.1 hseed.2.1, ?_, ?_, hseed.1⟩
  · intro k
    unfold getTCPConnectionStatusCounts
    rw [hkeys.2 k, hseed.2.2 k]
    simp [GoMap.keys]
  · by_cases hen : s.config.Metrics.SystemNetworkConnections.Enabled = true
    · simp only [hen, if_true]
      simp only [Scraper.recordNetworkConnectionsMetrics, s1, hen, Bool.not_true,
        recordNetworkConnectionsMetric_eq]
      rfl
    · simp only [hen]
      simp [Scraper.recordNetworkConnectionsMetrics, s1, hen]
  · intro k
    unfold getTCPConnectionStatusCounts
    rw [List.foldl_nil, hseed.2.2 k]
    simp [GoMap.keys]

/-! ## Contexts handed to the queries -/

/-- A started scraper to evaluate a cycle on: default metrics plus UDP datagrams, no
filters, every injected query answering with an empty list. -/
def sampleScraper : Scraper :=
  { settings := "network"
    config :=
      { MetricsBuilderConfig :=
          { Metrics :=
              { DefaultMetricsConfig with SystemNetworkUDPDatagrams := { Enabled := true } } }
        EnvMap := [("HOST_PROC", "/hostfs/proc")] }
    mb := some (NewMetricsBuilder DefaultMetricsBuilderConfig "network" 0)
    startTime := 0
    includeFS := none
    excludeFS := none
    bootTime := fun _ => .ok 0
    ioCounters := fun _ _ => .ok []
    connections := fun _ _ => .ok []
    conntrack := fun _ => .ok []
    protoCounters := fun _ _ => .ok [] }

/-- A world to evaluate a cycle in: the twelve sample states, a platform whose conntrack
group does nothing, and a protocol query answering with one UDP record. -/
def sampleWorld : World :=
  { allTCPStates := sampleTCPStates
    recordNetworkConntrackMetrics := fun _ st => (st, none)
    ProtoCountersWithContext := fun _ _ =>
      .ok [{ Protocol := "udp", Stats := [("InDatagrams", 7), ("OutDatagrams", 5)] }]
    nowCounters := 1
    nowConnections := 2
    nowProto := 3 }

/-- The counter group issues exactly one query, with the background-derived context. -/
theorem recordNetworkCounterMetrics_calls (s : Scraper) (w : World) (st : Run) :
    (s.recordNetworkCounterMetrics w st).1.calls =
      st.calls ++ [QueryCall.ioCounters (.withEnv .background s.config.EnvMap) true] := by
  simp only [Scraper.recordNetworkCounterMetrics, Scraper.backgroundCtx]
  rcases s.ioCounters (.withEnv .background s.config.EnvMap) true with err | l
  · rfl
  · simp only
    split <;> rfl

/-- The connections group issues one query with the background-derived context when its
metric is enabled, and none otherwise. -/
theorem recordNetworkConnectionsMetrics_calls (s : Scraper) (w : World) (st : Run) :
    (s.recordNetworkConnectionsMetrics w st).1.calls =
      st.calls ++
        (if s.config.Metrics.SystemNetworkConnections.Enabled then
          [QueryCall.connections (.withEnv .background s.config.EnvMap) "tcp"]
         else []) := by
  simp only [Scraper.recordNetworkConnectionsMetrics, Scraper.backgroundCtx]
  cases s.config.Metrics.SystemNetworkConnections.Enabled
  · simp
  · simp only [Bool.not_true, if_true]
    rcases s.connections (.withEnv .background s.config.EnvMap) "tcp" with err | l <;> simp

/-- The protocol group issues one query with the background-derived context when a UDP
metric is enabled, and none otherwise. -/
theorem recordNetworkProtoCounterMetrics_calls (s : Scraper) (w : World) (st : Run) :
    (s.recordNetworkProtoCounterMetrics w st).1.calls =
      st.calls ++
        (if anyUDPEnabled s.config.Metrics then
          [QueryCall.protoCounters (.withEnv .background s.config.EnvMap) ["udp"]]
         else []) := by
  simp only [Scraper.recordNetworkProtoCounterMetrics, Scraper.backgroundCtx, anyUDPEnabled]
  by_cases hen : (s.config.Metrics.SystemNetworkUDPDatagrams.Enabled ||
        s.config.Metrics.SystemNetworkUDPBufErrors.Enabled ||
        s.config.Metrics.SystemNetworkUDPErrors.Enabled ||
        s.config.Metrics.SystemNetworkUDPNoPorts.Enabled) = true
  · simp only [hen, Bool.not_true, if_true]
    rcases w.ProtoCountersWithContext (.withEnv .background s.config.EnvMap) ["udp"]
      with err | l
    · simp
    · cases l <;> simp
  · simp [hen]

/-- Claim C10, counterexample: a cycle called with the caller context `root 1` hands its
three queries the context
`WithValue(Background(), EnvKey, EnvMap)`, which is not derived from `root 1`. -/
theorem scrape_drops_caller_context :
    ∃ res, sampleScraper.scrape sampleWorld (.root 1) = some res ∧
      res.calls =
        [QueryCall.ioCounters (.withEnv .background [("HOST_PROC", "/hostfs/proc")]) true,
         QueryCall.connections (.withEnv .background [("HOST_PROC", "/hostfs/proc")]) "tcp",
         QueryCall.protoCounters (.withEnv .background [("HOST_PROC", "/hostfs/proc")])
           ["udp"]] ∧
      ¬ (∀ c ∈ res.calls, c.ctx.derivedFrom (.root 1) = true) := by
  refine ⟨_, rfl, rfl, ?_⟩
  intro h
  have h1 := h (QueryCall.ioCounters (.withEnv .background [("HOST_PROC", "/hostfs/proc")]) true)
    (List.mem_cons_self _ _)
  revert h1
  decide

/-- Claim C10, amended: `scrape` does not use the context it is given. Its result is the
same for any two caller contexts, and the query each of the three groups issues (IO
counters, TCP connections, protocol counters) is handed the context
`WithValue(Background(), EnvKey, EnvMap)` built from the background context; so on a
started scraper, with a conntrack group that issues no query, every query of the cycle
carries that context. -/
theorem scrape_queries_use_background (s : Scraper) (w : World) (st : Run)
    (ctx ctx2 : Context) (mb : MetricsBuilder) :
    let s1 : Scraper := { s with mb := some mb }
    let w1 : World := { w with recordNetworkConntrackMetrics := fun _ st => (st, none) }
    s.scrape w ctx = s.scrape w ctx2 ∧
    (s.recordNetworkCounterMetrics w st).1.calls =
      st.calls ++ [QueryCall.ioCounters (.withEnv .background s.config.EnvMap) true] ∧
    (s.recordNetworkConnectionsMetrics w st).1.calls =
      st.calls ++
        (if s.config.Metrics.SystemNetworkConnections.Enabled then
          [QueryCall.connections (.withEnv .background s.config.EnvMap) "tcp"]
         else []) ∧
    (s.recordNetworkProtoCounterMetrics w st).1.calls =
      st.calls ++
        (if anyUDPEnabled s.config.Metrics then
          [QueryCall.protoCounters (.withEnv .background s.config.EnvMap) ["udp"]]
         else []) ∧
    (∃ res, s1.scrape w1 ctx = some res ∧
      ∀ c ∈ res.calls, c.ctx = .withEnv .background s.config.EnvMap) := by
  intro s1 w1
  refine ⟨rfl, recordNetworkCounterMetrics_calls s w st,
    recordNetworkConnectionsMetrics_calls s w st,
    recordNetworkProtoCounterMetrics_calls s w st, ?_⟩
  have hcalls : (s1.scrapeGroups w1 { mb := mb, calls := [] }).1.calls =
      [QueryCall.ioCounters (.withEnv .background s.config.EnvMap) true] ++
        (if s.config.Metrics.SystemNetworkConnections.Enabled then
          [QueryCall.connections (.withEnv .background s.config.EnvMap) "tcp"]
         else []) ++
        (if anyUDPEnabled s.config.Metrics then
          [QueryCall.protoCounters (.withEnv .background s.config.EnvMap) ["udp"]]
         else []) := by
    simp only [Scraper.scrapeGroups]
    rw [recordNetworkProtoCounterMetrics_calls]
    simp only [w1]
    rw [recordNetworkConnectionsMetrics_calls, recordNetworkCounterMetrics_calls]
    simp [s1]
  refine ⟨{ scraper := { s1 with mb := some ((s1.scrapeGroups w1 { mb := mb, calls := [] }).1.mb.Emit).1 },
            calls := (s1.scrapeGroups w1 { mb := mb, calls := [] }).1.calls,
            metrics := (s1.scrapeGroups w1 { mb := mb, calls := [] }).1.mb.recorded,
            err := (s1.scrapeGroups w1 { mb := mb, calls := [] }).2.Combine }, rfl, ?_⟩
  intro c hc
  simp only [hcalls, List.mem_append, List.mem_singleton] at hc
  rcases hc with (hc | hc) | hc
  · rw [hc]
    rfl
  · split at hc
    · rw [List.mem_singleton.mp hc]
      rfl
    · cases hc
  · split at hc
    · rw [List.mem_singleton.mp hc]
      rfl
    · cases hc

/-! ## The counter group on one interface -/

/-- One interface record: "eth0" with 100 packets sent and 200 received, one outbound
drop, two inbound errors, 1000 bytes sent and 2000 received. -/
def eth0Counters : IOCountersStat :=
  { Name := "eth0", BytesSent := 1000, BytesRecv := 2000, PacketsSent := 100,
    PacketsRecv := 200, Errin := 2, Errout := 0, Dropin := 0, Dropout := 1,
    Fifoin := 0, Fifoout := 0 }

/-- The sample scraper with an IO-counters query that answers with the record of "eth0". -/
def eth0Scraper : Scraper :=
  { sampleScraper with ioCounters := fun _ _ => .ok [eth0Counters] }

/-- The state at the beginning of a cycle: a fresh builder with the default metrics
configuration, and no query issued yet. -/
def freshRun : Run :=
  { mb := NewMetricsBuilder DefaultMetricsBuilderConfig "network" 0, calls := [] }

/-- The same state with the packets family disabled in the builder's configuration. -/
def freshRunNoPackets : Run :=
  { mb := NewMetricsBuilder
      { Metrics := { DefaultMetricsConfig with SystemNetworkPackets := { Enabled := false } } }
      "network" 0,
    calls := [] }

/-- Claim C5, witness: the default configuration enables the four counter families, and
on the record of "eth0" the counter group returns no error and records eight points named
"eth0": packets 100 and 200, dropped 1 and 0, errors 0 and 2, io 1000 and 2000. -/
theorem recordNetworkCounterMetrics_points_witness :
    (freshRun.mb.config.Metrics.SystemNetworkPackets.Enabled = true ∧
     freshRun.mb.config.Metrics.SystemNetworkDropped.Enabled = true ∧
     freshRun.mb.config.Metrics.SystemNetworkErrors.Enabled = true ∧
     freshRun.mb.config.Metrics.SystemNetworkIo.Enabled = true) ∧
    ((eth0Scraper.recordNetworkCounterMetrics sampleWorld freshRun).2 = none ∧
      ∃ new : List DataPoint,
        (eth0Scraper.recordNetworkCounterMetrics sampleWorld freshRun).1.mb =
          { freshRun.mb with recorded := freshRun.mb.recorded ++ new } ∧
        new.Perm ((eth0Scraper.filterByInterface [eth0Counters]).flatMap
          (expectedCounterPoints sampleWorld.nowCounters)) ∧
        (∀ name : String,
          (new.filter (fun p => p.device == some name)).length =
            8 * ((eth0Scraper.filterByInterface [eth0Counters]).filter
              (fun io => io.Name == name)).length) ∧
        (∀ p ∈ new, ∃ io ∈ eth0Scraper.filterByInterface [eth0Counters],
          p.device = some io.Name) ∧
        (eth0Scraper.filterByInterface [eth0Counters] = [] → new = [])) ∧
    (eth0Scraper.recordNetworkCounterMetrics sampleWorld freshRun).1.mb.recorded =
      [⟨.packets, 1, 100, some "eth0", some .transmit, none, none⟩,
       ⟨.packets, 1, 200, some "eth0", some .receive, none, none⟩,
       ⟨.dropped, 1, 1, some "eth0", some .transmit, none, none⟩,
       ⟨.dropped, 1, 0, some "eth0", some .receive, none, none⟩,
       ⟨.errors, 1, 0, some "eth0", some .transmit, none, none⟩,
       ⟨.errors, 1, 2, some "eth0", some .receive, none, none⟩,
       ⟨.io, 1, 1000, some "eth0", some .transmit, none, none⟩,
       ⟨.io, 1, 2000, some "eth0", some .receive, none, none⟩] :=
  ⟨⟨rfl, rfl, rfl, rfl⟩,
   recordNetworkCounterMetrics_points eth0Scraper sampleWorld freshRun rfl rfl rfl rfl,
   by decide⟩

/-- A disabled family is not recorded: with packets disabled in the builder's configuration
the counter group keeps six points for "eth0", none of them in the packets series. -/
theorem recordNetworkCounterMetrics_packets_disabled :
    (eth0Scraper.recordNetworkCounterMetrics sampleWorld freshRunNoPackets).1.mb.recorded =
      [⟨.dropped, 1, 1, some "eth0", some .transmit, none, none⟩,
       ⟨.dropped, 1, 0, some "eth0", some .receive, none, none⟩,
       ⟨.errors, 1, 0, some "eth0", some .transmit, none, none⟩,
       ⟨.errors, 1, 2, some "eth0", some .receive, none, none⟩,
       ⟨.io, 1, 1000, some "eth0", some .transmit, none, none⟩,
       ⟨.io, 1, 2000, some "eth0", some .receive, none, none⟩] := by
  decide

end NetworkScraper
